import Mathlib

/-!
# Verification of the RAG chatbot frontend state logic and spec-level core

Shallow embedding of the state-management code of the repository
(`frontend/src/hooks/useTranslation.ts`, which bundles the `useChat`,
`useTextSelection` and `useTranslation` hooks, plus the `ChatInput` and
`TextSelector` components), together with spec-level models of the two
backend subsystems (Retrieval-and-Confidence Gate, Translation Cache
State Machine) whose Python sources are not part of the checked tree.

JavaScript strings are embedded as Lean `String`; the JS `.trim()`
method is embedded as `trimStr`, a directly-computable whitespace trim
on the character list (Lean core's `String.trim` is extensionally the
same operation but is defined by well-founded recursion on byte
positions, which the kernel cannot evaluate).
-/

/-- Embedding of JavaScript `String.prototype.trim`: drop whitespace from
both ends of the character list. -/
def trimStr (s : String) : String :=
  ⟨((s.data.dropWhile Char.isWhitespace).reverse.dropWhile Char.isWhitespace).reverse⟩

/-- `trimStr` never lengthens a string. -/
theorem trimStr_length_le (s : String) : (trimStr s).length ≤ s.length := by
  have h1 : (s.data.dropWhile Char.isWhitespace).length ≤ s.data.length :=
    (List.dropWhile_sublist _).length_le
  have h2 : ((s.data.dropWhile Char.isWhitespace).reverse.dropWhile
      Char.isWhitespace).length ≤ (s.data.dropWhile Char.isWhitespace).reverse.length :=
    (List.dropWhile_sublist _).length_le
  simp only [trimStr, String.length, List.length_reverse] at *
  omega

/-! ## Data model of the chat client (`useChat` hook) -/

/-- A source citation attached to an assistant message
(`SourceReference` from the API layer; fields per spec §3:
section id and relevance score, scores embedded as rationals). -/
structure SourceReference where
  section_id : String
  relevance : ℚ
  deriving DecidableEq, Repr

/-- Message role (`'user' | 'assistant'`). -/
inductive Role where
  | user
  | assistant
  deriving DecidableEq, Repr

/-- Chat mode (`ChatMode = 'full_book' | 'selected_text'`). -/
inductive ChatMode where
  | full_book
  | selected_text
  deriving DecidableEq, Repr

/-- A chat message.  Message ids (`msg_${Date.now()}_${random}` in the
source) are embedded as naturals drawn from a monotone fresh-id counter
carried in the state; timestamps as naturals. -/
structure Message where
  id : Nat
  role : Role
  content : String
  sources : Option (List SourceReference)
  timestamp : Nat
  deriving DecidableEq, Repr

/-- Successful response of `chatApi.sendMessage` /
`chatApi.sendSelectedTextMessage`. -/
structure ChatResponse where
  conversation_id : String
  message : String
  sources : List SourceReference
  deriving DecidableEq, Repr

/-- The state managed by `useChat`: the `useState` cells plus the two
refs (`lastUserMessageRef`, `lastSelectedTextRef`) and the fresh-id
counter backing `generateMessageId`. -/
structure ChatState where
  messages : List Message
  conversationId : Option String
  isLoading : Bool
  error : Option String
  mode : ChatMode
  selectedText : Option String
  lastUserMessage : Option String
  lastSelectedText : Option String
  nextId : Nat
  deriving DecidableEq, Repr

/-- Initial state of `useChat` (no `initialConversationId`). -/
def initialChatState : ChatState :=
  { messages := []
    conversationId := none
    isLoading := false
    error := none
    mode := ChatMode.full_book
    selectedText := none
    lastUserMessage := none
    lastSelectedText := none
    nextId := 0 }

/-- The request body built by `sendMessage`
(`{ message, conversation_id: conversationId || undefined }`). -/
structure ChatRequestBody where
  message : String
  conversation_id : Option String
  deriving DecidableEq, Repr

/-- The request body built by `sendSelectedTextMessage`
(`{ message, selected_text, conversation_id: conversationId || undefined }`). -/
structure SelectedTextRequestBody where
  message : String
  selected_text : String
  conversation_id : Option String
  deriving DecidableEq, Repr

/-- `sendMessage(content)`: one complete call of the async function,
with the backend outcome supplied as `result` and the clock as `now`.
Mirrors the source: guard on empty-trim / loading; optimistic append of
the user message; on success adopt the conversation id only when the
current one is null and append the assistant message; on failure store
the error and filter the optimistic user message back out; `finally`
clears the loading flag. -/
def sendMessage (s : ChatState) (content : String) (now : Nat)
    (result : Except String ChatResponse) : ChatState :=
  if trimStr content = "" ∨ s.isLoading then s
  else
    let trimmedContent := trimStr content
    let userMessage : Message :=
      { id := s.nextId, role := Role.user, content := trimmedContent,
        sources := none, timestamp := now }
    let s1 : ChatState :=
      { s with lastUserMessage := some trimmedContent,
               messages := s.messages ++ [userMessage],
               nextId := s.nextId + 1,
               isLoading := true,
               error := none }
    match result with
    | Except.ok response =>
        let s2 : ChatState :=
          if s.conversationId = none
          then { s1 with conversationId := some response.conversation_id }
          else s1
        let assistantMessage : Message :=
          { id := s2.nextId, role := Role.assistant, content := response.message,
            sources := some response.sources, timestamp := now }
        { s2 with messages := s2.messages ++ [assistantMessage],
                  nextId := s2.nextId + 1,
                  isLoading := false }
    | Except.error e =>
        { s1 with error := some e,
                  messages := s1.messages.filter (fun m => m.id ≠ userMessage.id),
                  isLoading := false }

/-- The payload `sendMessage` hands to `chatApi.sendMessage`, `none`
when the guard returns before any request is issued. -/
def sendMessageBody (s : ChatState) (content : String) : Option ChatRequestBody :=
  if trimStr content = "" ∨ s.isLoading then none
  else some { message := trimStr content, conversation_id := s.conversationId }

/-- `sendSelectedTextMessage(content, text)`: one complete call, same
shape as `sendMessage` but guarded additionally on empty-trim of the
selected text, recording `lastSelectedTextRef`, and attaching an empty
`sources` list to the assistant message. -/
def sendSelectedTextMessage (s : ChatState) (content text : String) (now : Nat)
    (result : Except String ChatResponse) : ChatState :=
  if trimStr content = "" ∨ trimStr text = "" ∨ s.isLoading then s
  else
    let trimmedContent := trimStr content
    let trimmedText := trimStr text
    let userMessage : Message :=
      { id := s.nextId, role := Role.user, content := trimmedContent,
        sources := none, timestamp := now }
    let s1 : ChatState :=
      { s with lastUserMessage := some trimmedContent,
               lastSelectedText := some trimmedText,
               messages := s.messages ++ [userMessage],
               nextId := s.nextId + 1,
               isLoading := true,
               error := none }
    match result with
    | Except.ok response =>
        let s2 : ChatState :=
          if s.conversationId = none
          then { s1 with conversationId := some response.conversation_id }
          else s1
        let assistantMessage : Message :=
          { id := s2.nextId, role := Role.assistant, content := response.message,
            sources := some [], timestamp := now }
        { s2 with messages := s2.messages ++ [assistantMessage],
                  nextId := s2.nextId + 1,
                  isLoading := false }
    | Except.error e =>
        { s1 with error := some e,
                  messages := s1.messages.filter (fun m => m.id ≠ userMessage.id),
                  isLoading := false }

/-- The payload `sendSelectedTextMessage` hands to
`chatApi.sendSelectedTextMessage`, `none` when the guard short-circuits. -/
def sendSelectedTextMessageBody (s : ChatState) (content text : String) :
    Option SelectedTextRequestBody :=
  if trimStr content = "" ∨ trimStr text = "" ∨ s.isLoading then none
  else some { message := trimStr content, selected_text := trimStr text,
              conversation_id := s.conversationId }

/-- `enterSelectedTextMode(text)`. -/
def enterSelectedTextMode (s : ChatState) (text : String) : ChatState :=
  { s with mode := ChatMode.selected_text,
           selectedText := some text,
           messages := [],
           conversationId := none,
           error := none }

/-- `exitSelectedTextMode()`. -/
def exitSelectedTextMode (s : ChatState) : ChatState :=
  { s with mode := ChatMode.full_book,
           selectedText := none,
           messages := [],
           conversationId := none,
           error := none,
           lastSelectedText := none }

/-- `clearConversation()`. -/
def clearConversation (s : ChatState) : ChatState :=
  { s with messages := [],
           conversationId := none,
           error := none,
           lastUserMessage := none,
           lastSelectedText := none,
           mode := ChatMode.full_book,
           selectedText := none }

/-- The message-list update inside `retryLastMessage`: find the last
user message (via `reverse().findIndex`) and `slice(0, actualIndex)`,
i.e. drop it and everything after it; leave the list unchanged when no
user message exists. -/
def dropFromLastUser (ms : List Message) : List Message :=
  match ms.reverse.findIdx? (fun m => m.role = Role.user) with
  | some revIdx => ms.take (ms.length - 1 - revIdx)
  | none => ms

/-- `retryLastMessage()`: when a last user message is recorded and no
request is in flight, drop the last user turn from the list and re-send
it — through `sendSelectedTextMessage` when in selected-text mode with a
recorded selection, else through `sendMessage`. -/
def retryLastMessage (s : ChatState) (now : Nat)
    (result : Except String ChatResponse) : ChatState :=
  match s.lastUserMessage with
  | none => s
  | some lastMessage =>
      if s.isLoading then s
      else
        let s1 : ChatState := { s with messages := dropFromLastUser s.messages }
        match s.mode, s.lastSelectedText with
        | ChatMode.selected_text, some text =>
            sendSelectedTextMessage s1 lastMessage text now result
        | _, _ => sendMessage s1 lastMessage now result

/-- Well-formedness of a chat state: every stored message id is below
the fresh-id counter.  Holds for `initialChatState` and is preserved by
every operation. -/
def WfChat (s : ChatState) : Prop :=
  ∀ m ∈ s.messages, m.id < s.nextId

instance (s : ChatState) : Decidable (WfChat s) := by
  unfold WfChat; infer_instance

/-! ## Data model of the translation hook (`useTranslation`) -/

/-- `TranslationStatus = 'idle' | 'loading' | 'polling' | 'completed' | 'error'`. -/
inductive TranslationStatus where
  | idle
  | loading
  | polling
  | completed
  | error
  deriving DecidableEq, Repr

/-- A backend reply to a translation request: either a completed
translation carrying `content` (`TranslationResponse`) or a pending one
carrying an optional `estimated_seconds` (`TranslationPendingResponse`).
The source discriminates with `'content' in response`. -/
inductive TranslationReply where
  | completedReply (content : String)
  | pendingReply (estimated_seconds : Option Nat)
  deriving DecidableEq, Repr

/-- The state managed by `useTranslation`: the four `useState` cells
plus the two refs — `pollingRef` (whether an interval is live, embedded
as `pollingActive`) and `currentChapterRef`. -/
structure TransState where
  content : Option String
  status : TranslationStatus
  error : Option String
  estimatedSeconds : Option Nat
  pollingActive : Bool
  currentChapter : Option String
  deriving DecidableEq, Repr

/-- `stopPolling()`: clear the interval. -/
def stopPolling (s : TransState) : TransState :=
  { s with pollingActive := false }

/-- `startPolling(chapterSlug)`: stop any previous interval, record the
chapter, start a new interval. -/
def startPolling (s : TransState) (chapterSlug : String) : TransState :=
  { stopPolling s with currentChapter := some chapterSlug, pollingActive := true }

/-- `handleResponse(response)`: a completed reply stores the content,
moves to `completed`, clears the ETA and stops polling; a pending reply
moves to `polling` and records the reported ETA. -/
def handleResponse (s : TransState) (response : TranslationReply) : TransState :=
  match response with
  | TranslationReply.completedReply c =>
      stopPolling { s with content := some c,
                           status := TranslationStatus.completed,
                           estimatedSeconds := none }
  | TranslationReply.pendingReply es =>
      { s with status := TranslationStatus.polling, estimatedSeconds := es }

/-- `pollTranslation(chapterSlug)`: one poll tick; a failed poll only
warns and leaves the state unchanged. -/
def pollTranslation (s : TransState) (result : Except String TranslationReply) :
    TransState :=
  match result with
  | Except.ok response => handleResponse s response
  | Except.error _ => s

/-- `requestTranslation(chapterSlug, content)`: one complete call with
the backend outcome supplied as `result`.  Resets status/error/content,
records the chapter, then handles the reply — starting polling when the
reply is pending — or stores the error. -/
def requestTranslation (s : TransState) (chapterSlug : String)
    (result : Except String TranslationReply) : TransState :=
  let s1 : TransState :=
    { s with status := TranslationStatus.loading, error := none,
             content := none, currentChapter := some chapterSlug }
  match result with
  | Except.ok response =>
      match response with
      | TranslationReply.completedReply _ => handleResponse s1 response
      | TranslationReply.pendingReply _ =>
          startPolling (handleResponse s1 response) chapterSlug
  | Except.error e =>
      { s1 with error := some e, status := TranslationStatus.error }

/-- `getTranslation(chapterSlug)`: like `requestTranslation` but without
clearing the cached content before the call. -/
def getTranslation (s : TransState) (chapterSlug : String)
    (result : Except String TranslationReply) : TransState :=
  let s1 : TransState :=
    { s with status := TranslationStatus.loading, error := none,
             currentChapter := some chapterSlug }
  match result with
  | Except.ok response =>
      match response with
      | TranslationReply.completedReply _ => handleResponse s1 response
      | TranslationReply.pendingReply _ =>
          startPolling (handleResponse s1 response) chapterSlug
  | Except.error e =>
      { s1 with error := some e, status := TranslationStatus.error }

/-! ## Data model of text selection (`useTextSelection` / `TextSelector`) -/

/-- `validateSelection(text)`: `none` when valid, otherwise the
validation error message.  Checks, on the trimmed text: non-empty, at
least `minLength`, at most `maxLength`. -/
def validateSelection (minLength maxLength : Nat) (text : String) : Option String :=
  let trimmed := trimStr text
  if trimmed = "" then some "Selection is empty"
  else if trimmed.length < minLength then
    some ("Selection must be at least " ++ toString minLength ++ " characters")
  else if trimmed.length > maxLength then
    some ("Selection cannot exceed " ++ toString maxLength ++ " characters")
  else none

/-- The selection state of `useTextSelection`: the current selection
text (when any) and the stored validation error. -/
structure SelectionState where
  selectionText : Option String
  validationError : Option String
  deriving DecidableEq, Repr

/-- `handleSelectionChange` on a non-collapsed browser selection with
text `text`: store the selection and the result of validating it. -/
def handleSelectionChange (minLength maxLength : Nat) (text : String) :
    SelectionState :=
  { selectionText := some text,
    validationError := validateSelection minLength maxLength text }

/-- `selectedText` as derived by the hook: `selection?.text.trim() || ''`. -/
def selectedTextOf (s : SelectionState) : String :=
  match s.selectionText with
  | some t => trimStr t
  | none => ""

/-- `isValidSelection`: non-empty derived text and no validation error. -/
def isValidSelection (s : SelectionState) : Bool :=
  (selectedTextOf s).length > 0 && s.validationError = none

/-- `handleAsk` in `TextSelector`: submit the selected text through
`onAskAboutSelection` only when the selection is valid and non-empty;
`none` means nothing is submitted. -/
def handleAsk (s : SelectionState) : Option String :=
  if isValidSelection s && selectedTextOf s ≠ "" then some (selectedTextOf s)
  else none

/-! ## Data model of the chat input (`ChatInput`) -/

/-- The draft text held by `ChatInput`. -/
structure InputState where
  message : String
  deriving DecidableEq, Repr

/-- `handleChange`: accept the new value only when it does not exceed
`maxLength`. -/
def handleChange (maxLength : Nat) (s : InputState) (value : String) : InputState :=
  if value.length ≤ maxLength then { message := value } else s

/-- `handleSubmit`: emit the trimmed draft through `onSend` and clear
the draft, unless the trimmed draft is empty or the input is disabled;
the first component is the emitted message (if any). -/
def handleSubmit (disabled : Bool) (s : InputState) : Option String × InputState :=
  let trimmedMessage := trimStr s.message
  if trimmedMessage ≠ "" && !disabled then (some trimmedMessage, { message := "" })
  else (none, s)

/-- A draft reachable from the empty draft by any sequence of
`handleChange` events, folded left to right. -/
def runChanges (maxLength : Nat) (values : List String) : InputState :=
  values.foldl (handleChange maxLength) { message := "" }

/-! ## Translation Cache State Machine (backend, modelled from spec §4.5) -/

/-- Modelled from the spec: the backend `TranslationJob` status of the
Translation Cache State Machine is not in the checked tree (only its
FastAPI caller scaffolding is documented).  `absent` is represented by
the key being missing from the table; a `completed` job carries its
content and freshness deadline. -/
inductive JobStatus where
  | pending
  | generating
  | completed (content : String) (expiresAt : Nat)
  | failed
  deriving DecidableEq, Repr

/-- Unique key of a translation job: (section id, target language). -/
abbrev JobKey := String × String

/-- Modelled from the spec: the translation table keyed by
(sectionId, language), plus the current clock used for expiry checks.
The table is an association list with at most one live entry per key
(`setJob` replaces). -/
structure CacheState where
  jobs : List (JobKey × JobStatus)
  now : Nat
  deriving DecidableEq, Repr

/-- Look up the job for a key; `none` is the spec's `absent`. -/
def lookupJob (s : CacheState) (k : JobKey) : Option JobStatus :=
  (s.jobs.find? (fun p => p.1 = k)).map Prod.snd

/-- Write the job row for a key, superseding any previous row. -/
def setJob (s : CacheState) (k : JobKey) (st : JobStatus) : CacheState :=
  { s with jobs := (k, st) :: s.jobs.filter (fun p => p.1 ≠ k) }

/-- Reply of `requestTranslation`/`getTranslation` on the backend:
either the completed content (cache hit) or a status report for an
in-flight job. -/
inductive CacheReply where
  | contentReply (content : String)
  | statusReply (status : JobStatus)
  deriving DecidableEq, Repr

/-- A key is claimable when its job is `absent`, `failed`, or
`completed` but expired. -/
def claimable (s : CacheState) (k : JobKey) : Bool :=
  match lookupJob s k with
  | none => true
  | some JobStatus.failed => true
  | some (JobStatus.completed _ exp) => decide (exp ≤ s.now)
  | some JobStatus.pending => false
  | some JobStatus.generating => false

/-- Modelled from the spec: the atomic request step of
`requestTranslation(sectionId, language, sourceText)` (§4.5, steps 1-3).
The backend implementation is not in the checked tree.  A fresh
`completed` job is a cache hit; `pending`/`generating` yield a status
reply; an `absent`/`failed`/expired key is claimed by an atomic
conditional write of `pending`.  The middle component reports whether
this call's atomic claim succeeded. -/
def requestTranslationJob (s : CacheState) (k : JobKey) :
    CacheReply × Bool × CacheState :=
  match lookupJob s k with
  | some (JobStatus.completed c exp) =>
      if s.now < exp then (CacheReply.contentReply c, false, s)
      else (CacheReply.statusReply JobStatus.pending, true,
            setJob s k JobStatus.pending)
  | some JobStatus.pending =>
      (CacheReply.statusReply JobStatus.pending, false, s)
  | some JobStatus.generating =>
      (CacheReply.statusReply JobStatus.generating, false, s)
  | some JobStatus.failed =>
      (CacheReply.statusReply JobStatus.pending, true,
       setJob s k JobStatus.pending)
  | none =>
      (CacheReply.statusReply JobStatus.pending, true,
       setJob s k JobStatus.pending)

/-- Modelled from the spec: the claim holder's transition
`pending → generating` (§4.5 step 3); a no-op unless the key is
`pending`. -/
def beginGeneration (s : CacheState) (k : JobKey) : CacheState :=
  match lookupJob s k with
  | some JobStatus.pending => setJob s k JobStatus.generating
  | _ => s

/-- Modelled from the spec: the transition `generating → completed`
with content and a freshness deadline; a no-op unless the key is
`generating`. -/
def completeGeneration (s : CacheState) (k : JobKey) (content : String)
    (expiresAt : Nat) : CacheState :=
  match lookupJob s k with
  | some JobStatus.generating => setJob s k (JobStatus.completed content expiresAt)
  | _ => s

/-- Modelled from the spec: the transition `generating → failed` on a
backend error; a no-op unless the key is `generating`. -/
def failGeneration (s : CacheState) (k : JobKey) : CacheState :=
  match lookupJob s k with
  | some JobStatus.generating => setJob s k JobStatus.failed
  | _ => s

/-- `n` request steps for the same key, in arrival order (each step is
atomic, so any interleaving of `n` concurrent callers is some sequence
of these steps).  Returns each caller's (reply, claim-succeeded) pair
and the final state. -/
def requestN (s : CacheState) (k : JobKey) : Nat → List (CacheReply × Bool) × CacheState
  | 0 => ([], s)
  | n + 1 =>
      let (r, b, s') := requestTranslationJob s k
      let (rest, s'') := requestN s' k n
      ((r, b) :: rest, s'')

/-! ## Retrieval-and-Confidence Gate (backend, modelled from spec §4.1) -/

/-- A corpus fragment returned by the Similarity Index, with its
similarity score (spec §3; scores embedded as rationals). -/
structure RetrievedFragment where
  fragment_id : String
  source_section : String
  text : String
  score : ℚ
  deriving DecidableEq, Repr

/-- Maximum similarity among returned fragments, `0` if none returned
(spec §4.1). -/
def maxSimilarity (fragments : List RetrievedFragment) : ℚ :=
  (fragments.map (fun f => f.score)).foldr max 0

/-- Coverage decision for a full-book query (spec §3). -/
structure CoverageDecision where
  covered : Bool
  fragments : List RetrievedFragment
  max_similarity : ℚ
  deriving DecidableEq, Repr

/-- Modelled from the spec: `evaluate(queryText)` of the
Retrieval-and-Confidence Gate (§4.1); the backend implementation is not
in the checked tree.  The Embedding Gateway and Similarity Index are
collaborators, so the step takes the index's returned fragments as
input and compares their maximum score against the threshold. -/
def evaluate (threshold : ℚ) (fragments : List RetrievedFragment) : CoverageDecision :=
  { covered := decide (maxSimilarity fragments ≥ threshold)
    fragments := fragments
    max_similarity := maxSimilarity fragments }

/-- Result of a query (spec §3). -/
structure AnswerResult where
  text : String
  source_citations : List SourceReference
  is_covered : Bool
  deriving DecidableEq, Repr

/-- The fixed full-book fallback phrase (spec §3). -/
def fallbackFullBook : String := "Not covered in this book"

/-- Modelled from the spec: `answerFullBook(question, ...)` (§4.2, §6);
the backend implementation is not in the checked tree.  The Generative
Answer Service is a collaborator, abstracted as `generate`; the boolean
component records whether it was invoked.  When the coverage decision
is negative the call short-circuits to the fixed fallback result
without invoking the generator. -/
def answerFullBook (threshold : ℚ)
    (generate : List RetrievedFragment → String × List SourceReference)
    (fragments : List RetrievedFragment) : AnswerResult × Bool :=
  let decision := evaluate threshold fragments
  if decision.covered then
    let (answerText, citations) := generate decision.fragments
    ({ text := answerText, source_citations := citations, is_covered := true }, true)
  else
    ({ text := fallbackFullBook, source_citations := [], is_covered := false }, false)

/-! ## Helper lemmas -/

/-- `trimStr` of a non-blank literal list is itself reversible sanity:
the empty string trims to itself. -/
theorem trimStr_empty : trimStr "" = "" := rfl

/-- Filtering a freshly-appended message back out restores the list,
provided the fresh id does not occur in the list. -/
theorem filter_ne_append_singleton (ms : List Message) (msg : Message)
    (h : ∀ m ∈ ms, m.id ≠ msg.id) :
    (ms ++ [msg]).filter (fun m => m.id ≠ msg.id) = ms := by
  rw [List.filter_append]
  have h1 : ms.filter (fun m => m.id ≠ msg.id) = ms := by
    apply List.filter_eq_self.mpr
    intro m hm
    simpa using h m hm
  have h2 : [msg].filter (fun m => m.id ≠ msg.id) = [] := by
    simp
  rw [h1, h2, List.append_nil]

/-! ## C3 -/

/-- C3: `enterSelectedTextMode(text)` yields mode `selected_text`,
selected text `text`, empty messages, null conversation id and null
error; `exitSelectedTextMode()` yields mode `full_book`, null selected
text, empty messages, null conversation id, null error and a cleared
last-selected-text reference — no conversation context or selected text
carries over across a mode transition in either direction. -/
theorem mode_transitions_reset_conversation (s : ChatState) (text : String) :
    (enterSelectedTextMode s text).mode = ChatMode.selected_text ∧
    (enterSelectedTextMode s text).selectedText = some text ∧
    (enterSelectedTextMode s text).messages = [] ∧
    (enterSelectedTextMode s text).conversationId = none ∧
    (enterSelectedTextMode s text).error = none ∧
    (exitSelectedTextMode s).mode = ChatMode.full_book ∧
    (exitSelectedTextMode s).selectedText = none ∧
    (exitSelectedTextMode s).messages = [] ∧
    (exitSelectedTextMode s).conversationId = none ∧
    (exitSelectedTextMode s).error = none ∧
    (exitSelectedTextMode s).lastSelectedText = none := by
  exact ⟨rfl, rfl, rfl, rfl, rfl, rfl, rfl, rfl, rfl, rfl, rfl⟩

/-! ## C7 -/

/-- C7: a translation response carrying content moves the client state
to `completed` with the content stored, the ETA cleared and polling
stopped; a response without content moves it to `polling` with the
reported ETA recorded, and `requestTranslation`/`getTranslation` start
polling of the same chapter while a poll tick leaves the running poll
untouched — completed is terminal, pending leads to polling, never the
reverse. -/
theorem translation_response_transitions (s : TransState) (slug c : String)
    (es : Option Nat) :
    handleResponse s (TranslationReply.completedReply c) =
      { s with content := some c, status := TranslationStatus.completed,
               estimatedSeconds := none, pollingActive := false } ∧
    handleResponse s (TranslationReply.pendingReply es) =
      { s with status := TranslationStatus.polling, estimatedSeconds := es } ∧
    requestTranslation s slug (Except.ok (TranslationReply.completedReply c)) =
      { s with content := some c, status := TranslationStatus.completed,
               estimatedSeconds := none, pollingActive := false,
               error := none, currentChapter := some slug } ∧
    requestTranslation s slug (Except.ok (TranslationReply.pendingReply es)) =
      { s with content := none, status := TranslationStatus.polling,
               estimatedSeconds := es, error := none,
               pollingActive := true, currentChapter := some slug } ∧
    getTranslation s slug (Except.ok (TranslationReply.completedReply c)) =
      { s with content := some c, status := TranslationStatus.completed,
               estimatedSeconds := none, pollingActive := false,
               error := none, currentChapter := some slug } ∧
    getTranslation s slug (Except.ok (TranslationReply.pendingReply es)) =
      { s with status := TranslationStatus.polling, estimatedSeconds := es,
               error := none, pollingActive := true, currentChapter := some slug } ∧
    pollTranslation s (Except.ok (TranslationReply.completedReply c)) =
      { s with content := some c, status := TranslationStatus.completed,
               estimatedSeconds := none, pollingActive := false } ∧
    (pollTranslation s (Except.ok (TranslationReply.pendingReply es))).pollingActive =
      s.pollingActive ∧
    (pollTranslation s (Except.ok (TranslationReply.pendingReply es))).currentChapter =
      s.currentChapter := by
  exact ⟨rfl, rfl, rfl, rfl, rfl, rfl, rfl, rfl, rfl⟩

/-! ## C5 -/

/-- C5: selection validation succeeds exactly when the trimmed text is
non-empty and its length lies within the configured bounds; and in the
`TextSelector`, the ask action submits the (trimmed) selection exactly
when validation succeeded, so an out-of-bounds span is rejected
synchronously and only validated selections are submitted. -/
theorem selection_validation_characterises (minLength maxLength : Nat)
    (text : String) :
    (validateSelection minLength maxLength text = none ↔
      (trimStr text ≠ "" ∧ minLength ≤ (trimStr text).length ∧
        (trimStr text).length ≤ maxLength)) ∧
    (handleAsk (handleSelectionChange minLength maxLength text) =
      if validateSelection minLength maxLength text = none
      then some (trimStr text) else none) := by
  have hchar : validateSelection minLength maxLength text = none ↔
      (trimStr text ≠ "" ∧ minLength ≤ (trimStr text).length ∧
        (trimStr text).length ≤ maxLength) := by
    unfold validateSelection
    by_cases h1 : trimStr text = ""
    · simp [h1]
    · by_cases h2 : (trimStr text).length < minLength
      · simp [h1, h2]
      · by_cases h3 : (trimStr text).length > maxLength
        · simp [h1, h2, h3]
        · simp [h1, h2, h3]; omega
  refine ⟨hchar, ?_⟩
  unfold handleAsk handleSelectionChange isValidSelection selectedTextOf
  by_cases hv : validateSelection minLength maxLength text = none
  · have hne : trimStr text ≠ "" := (hchar.mp hv).1
    have hlen : (trimStr text).length > 0 := by
      rcases hts : trimStr text with ⟨data⟩
      cases data with
      | nil => rw [hts] at hne; simp at hne
      | cons a l => simp [String.length]
    simp [hv, hlen, hne]
  · simp [hv]

/-! ## C10 -/

/-- C10: every message emitted by the chat input's `onSend` is the
trimmed draft, non-empty and within `maxLength` (given the draft obeys
the bound, which every `handleChange`-reachable draft does), rejected
input changes keep the draft within `maxLength`, and submission is a
no-op when the draft trims to empty or the input is disabled. -/
theorem chat_input_emission_bounds (maxLength : Nat) (values : List String)
    (disabled d : Bool) (s t : InputState) (m : String)
    (hs : s.message.length ≤ maxLength)
    (hemit : (handleSubmit disabled s).1 = some m)
    (hnoop : trimStr t.message = "" ∨ d = true) :
    m = trimStr s.message ∧ m ≠ "" ∧ m.length ≤ maxLength ∧ disabled = false ∧
    (runChanges maxLength values).message.length ≤ maxLength ∧
    handleSubmit d t = (none, t) := by
  have hrun : ∀ (vs : List String) (init : InputState),
      init.message.length ≤ maxLength →
      (vs.foldl (handleChange maxLength) init).message.length ≤ maxLength := by
    intro vs
    induction vs with
    | nil => intro init h; simpa using h
    | cons v rest ih =>
        intro init h
        simp only [List.foldl_cons]
        apply ih
        unfold handleChange
        by_cases hv : v.length ≤ maxLength
        · simp [hv]
        · simp [hv]; exact h
    -- end induction
  have hsub : trimStr s.message ≠ "" ∧ disabled = false ∧ m = trimStr s.message := by
    unfold handleSubmit at hemit
    dsimp only at hemit
    split at hemit
    next hcond =>
      rcases Bool.and_eq_true _ _ |>.mp hcond with ⟨h1, h2⟩
      exact ⟨by simpa using h1, by simpa using h2, by simpa using hemit.symm⟩
    next hcond => simp at hemit
  rcases hsub with ⟨h1, h2, h3⟩
  refine ⟨h3, by rw [h3]; exact h1, ?_, h2, hrun values ⟨""⟩ (by simp), ?_⟩
  · rw [h3]
    exact le_trans (trimStr_length_le s.message) hs
  · unfold handleSubmit
    rcases hnoop with h | h
    · rw [if_neg (by simp [h])]
    · rw [if_neg (by simp [h])]

/-- C10 witness: at `maxLength = 10`, draft `" hi  "` (within bound)
emits exactly `"hi"`, an over-long change is rejected, and a blank
draft submits nothing. -/
theorem chat_input_emission_bounds_witness :
    ("hi" : String) = trimStr " hi  " ∧ ("hi" : String) ≠ "" ∧
    ("hi" : String).length ≤ 10 ∧ (false = false) ∧
    (runChanges 10 ["abc", "abcdefghijklmnop"]).message.length ≤ 10 ∧
    handleSubmit true { message := "draft" } = (none, { message := "draft" }) :=
  chat_input_emission_bounds 10 ["abc", "abcdefghijklmnop"] false true
    { message := " hi  " } { message := "draft" } "hi"
    (by decide) (by decide) (Or.inr rfl)

/-! ## C8 -/

/-- C8: whenever its own guard fires — content trimming to empty or a
request in flight for `sendMessage`; content or selected text trimming
to empty or a request in flight for `sendSelectedTextMessage` — the
call leaves the entire chat state unchanged and issues no backend
request.  Each call's guard gates only that call's conclusions, so the
selected-text-only-empty case is covered. -/
theorem send_guard_noop (s : ChatState) (c t : String) (now : Nat)
    (r : Except String ChatResponse) :
    ((trimStr c = "" ∨ s.isLoading = true) →
      sendMessage s c now r = s ∧ sendMessageBody s c = none) ∧
    ((trimStr c = "" ∨ trimStr t = "" ∨ s.isLoading = true) →
      sendSelectedTextMessage s c t now r = s ∧
      sendSelectedTextMessageBody s c t = none) := by
  constructor
  · intro hsend
    constructor
    · unfold sendMessage; rw [if_pos hsend]
    · unfold sendMessageBody; rw [if_pos hsend]
  · intro hsel
    constructor
    · unfold sendSelectedTextMessage; rw [if_pos hsel]
    · unfold sendSelectedTextMessageBody; rw [if_pos hsel]

/-- C8 witness: a whitespace-only message leaves the initial state
untouched with no request body; and a selected-text call whose content
is non-empty but whose selected text trims to empty (with no request in
flight) is likewise a complete no-op. -/
theorem send_guard_noop_witness :
    (sendMessage initialChatState "   " 0 (Except.error "down") = initialChatState ∧
     sendMessageBody initialChatState "   " = none) ∧
    (sendSelectedTextMessage initialChatState "hello" "   " 0
        (Except.error "down") = initialChatState ∧
     sendSelectedTextMessageBody initialChatState "hello" "   " = none) :=
  ⟨(send_guard_noop initialChatState "   " "x" 0 (Except.error "down")).1
      (Or.inl (by decide)),
   (send_guard_noop initialChatState "hello" "   " 0 (Except.error "down")).2
      (Or.inr (Or.inl (by decide)))⟩

/-! ## C9 helper lemmas -/

/-- `sendMessage` never replaces a non-null conversation id. -/
theorem sendMessage_conversationId_of_some (s : ChatState) (c : String) (now : Nat)
    (r : Except String ChatResponse) (id : String) (h : s.conversationId = some id) :
    (sendMessage s c now r).conversationId = some id := by
  unfold sendMessage
  split
  · exact h
  · cases r with
    | ok response => simp [h]
    | error e => simp [h]

/-- `sendSelectedTextMessage` never replaces a non-null conversation id. -/
theorem sendSelectedTextMessage_conversationId_of_some (s : ChatState)
    (c t : String) (now : Nat) (r : Except String ChatResponse) (id : String)
    (h : s.conversationId = some id) :
    (sendSelectedTextMessage s c t now r).conversationId = some id := by
  unfold sendSelectedTextMessage
  split
  · exact h
  · cases r with
    | ok response => simp [h]
    | error e => simp [h]

/-- `retryLastMessage` never replaces a non-null conversation id. -/
theorem retryLastMessage_conversationId_of_some (s : ChatState) (now : Nat)
    (r : Except String ChatResponse) (id : String)
    (h : s.conversationId = some id) :
    (retryLastMessage s now r).conversationId = some id := by
  unfold retryLastMessage
  cases hl : s.lastUserMessage with
  | none => exact h
  | some lastMessage =>
      dsimp only
      by_cases hload : s.isLoading
      · rw [if_pos hload]; exact h
      · rw [if_neg hload]
        split
        · exact sendSelectedTextMessage_conversationId_of_some _ _ _ _ _ _ h
        · exact sendMessage_conversationId_of_some _ _ _ _ _ h

/-! ## C9 -/

/-- C9: a non-null conversation id is never replaced by any send or
retry (success or failure); it returns to null only through
`clearConversation`, `enterSelectedTextMode` or `exitSelectedTextMode`;
and a null id is adopted from the response of a successful send. -/
theorem conversation_id_stable (s s0 : ChatState) (c t : String) (now : Nat)
    (r : Except String ChatResponse) (resp : ChatResponse) (id : String)
    (h : s.conversationId = some id)
    (h0 : s0.conversationId = none) (hc : trimStr c ≠ "")
    (hload : s0.isLoading = false) :
    (sendMessage s c now r).conversationId = some id ∧
    (sendSelectedTextMessage s c t now r).conversationId = some id ∧
    (retryLastMessage s now r).conversationId = some id ∧
    (clearConversation s).conversationId = none ∧
    (enterSelectedTextMode s t).conversationId = none ∧
    (exitSelectedTextMode s).conversationId = none ∧
    (sendMessage s0 c now (Except.ok resp)).conversationId =
      some resp.conversation_id := by
  refine ⟨sendMessage_conversationId_of_some s c now r id h,
          sendSelectedTextMessage_conversationId_of_some s c t now r id h,
          retryLastMessage_conversationId_of_some s now r id h,
          rfl, rfl, rfl, ?_⟩
  unfold sendMessage
  rw [if_neg (by simp [hc, hload])]
  simp [h0]

/-- C9 witness: with conversation id `"c0"` held, a failing send keeps
it; the resets null it; and from a null id the response id `"c1"` is
adopted. -/
theorem conversation_id_stable_witness :
    (sendMessage { initialChatState with conversationId := some "c0" }
        "hello" 0 (Except.error "down")).conversationId = some "c0" ∧
    (sendSelectedTextMessage { initialChatState with conversationId := some "c0" }
        "hello" "text" 0 (Except.error "down")).conversationId = some "c0" ∧
    (retryLastMessage { initialChatState with conversationId := some "c0" }
        0 (Except.error "down")).conversationId = some "c0" ∧
    (clearConversation { initialChatState with conversationId := some "c0" }).conversationId = none ∧
    (enterSelectedTextMode { initialChatState with conversationId := some "c0" }
        "text").conversationId = none ∧
    (exitSelectedTextMode { initialChatState with conversationId := some "c0" }).conversationId = none ∧
    (sendMessage initialChatState "hello" 0
        (Except.ok { conversation_id := "c1", message := "hi", sources := [] })).conversationId =
      some "c1" :=
  conversation_id_stable { initialChatState with conversationId := some "c0" }
    initialChatState "hello" "text" 0 (Except.error "down")
    { conversation_id := "c1", message := "hi", sources := [] } "c0"
    rfl rfl (by decide) rfl

/-! ## C6 helper lemmas -/

/-- Full effect of a failing `sendMessage` on a well-formed state: the
error is stored, the optimistic user message is filtered back out (so
the message list is restored), the last-user-message ref holds the
trimmed content, and loading ends. -/
theorem sendMessage_error_eq (s : ChatState) (c e : String) (now : Nat)
    (hc : trimStr c ≠ "") (hload : s.isLoading = false) (hWf : WfChat s) :
    sendMessage s c now (Except.error e) =
      { s with lastUserMessage := some (trimStr c),
               nextId := s.nextId + 1,
               error := some e,
               isLoading := false } := by
  unfold sendMessage
  rw [if_neg (by simp [hc, hload])]
  have hmsg := filter_ne_append_singleton s.messages
      ⟨s.nextId, Role.user, trimStr c, none, now⟩
      (fun m hm => Nat.ne_of_lt (hWf m hm))
  simp only [ChatState.mk.injEq]
  exact ⟨hmsg, by simp⟩

/-- Full effect of a failing `sendSelectedTextMessage` on a well-formed
state: like `sendMessage_error_eq`, additionally recording the trimmed
selected text. -/
theorem sendSelectedTextMessage_error_eq (s : ChatState) (c t e : String) (now : Nat)
    (hc : trimStr c ≠ "") (ht : trimStr t ≠ "") (hload : s.isLoading = false)
    (hWf : WfChat s) :
    sendSelectedTextMessage s c t now (Except.error e) =
      { s with lastUserMessage := some (trimStr c),
               lastSelectedText := some (trimStr t),
               nextId := s.nextId + 1,
               error := some e,
               isLoading := false } := by
  unfold sendSelectedTextMessage
  rw [if_neg (by simp [hc, ht, hload])]
  have hmsg := filter_ne_append_singleton s.messages
      ⟨s.nextId, Role.user, trimStr c, none, now⟩
      (fun m hm => Nat.ne_of_lt (hWf m hm))
  simp only [ChatState.mk.injEq]
  exact ⟨hmsg, by simp⟩

/-- `retryLastMessage` dispatch in full-book mode: with a recorded last
user message and no request in flight, it drops the last user turn and
re-sends through `sendMessage`. -/
theorem retry_dispatch_full_book (s : ChatState) (lm : String) (now : Nat)
    (r : Except String ChatResponse)
    (hlm : s.lastUserMessage = some lm) (hload : s.isLoading = false)
    (hmode : s.mode = ChatMode.full_book) :
    retryLastMessage s now r =
      sendMessage { s with messages := dropFromLastUser s.messages } lm now r := by
  unfold retryLastMessage
  rw [hlm]
  dsimp only
  rw [if_neg (by simp [hload])]
  rw [hmode]

/-- `retryLastMessage` dispatch in selected-text mode with a recorded
selection: it drops the last user turn and re-sends through
`sendSelectedTextMessage`. -/
theorem retry_dispatch_selected_text (s : ChatState) (lm text : String) (now : Nat)
    (r : Except String ChatResponse)
    (hlm : s.lastUserMessage = some lm) (hload : s.isLoading = false)
    (hmode : s.mode = ChatMode.selected_text)
    (hsel : s.lastSelectedText = some text) :
    retryLastMessage s now r =
      sendSelectedTextMessage { s with messages := dropFromLastUser s.messages }
        lm text now r := by
  unfold retryLastMessage
  rw [hlm]
  dsimp only
  rw [if_neg (by simp [hload])]
  rw [hmode, hsel]

/-! ## C6 -/

/-- C6: a failing send stores the error as a retryable failure, appends
no assistant message (in particular the fallback phrase is never
substituted for the answer), restores the message list to its pre-call
value, ends loading, and the turn can be re-issued through
`retryLastMessage`, which re-sends the same trimmed content (and
selected text) in the current mode. -/
theorem failed_send_is_retryable (s : ChatState) (c t e : String) (now now2 : Nat)
    (r : Except String ChatResponse)
    (hWf : WfChat s) (hc : trimStr c ≠ "") (ht : trimStr t ≠ "")
    (hload : s.isLoading = false) :
    (sendMessage s c now (Except.error e)).error = some e ∧
    (sendMessage s c now (Except.error e)).messages = s.messages ∧
    (sendMessage s c now (Except.error e)).isLoading = false ∧
    (sendSelectedTextMessage s c t now (Except.error e)).error = some e ∧
    (sendSelectedTextMessage s c t now (Except.error e)).messages = s.messages ∧
    (sendSelectedTextMessage s c t now (Except.error e)).isLoading = false ∧
    (s.mode = ChatMode.full_book →
      retryLastMessage (sendMessage s c now (Except.error e)) now2 r =
        sendMessage { sendMessage s c now (Except.error e) with
                        messages := dropFromLastUser s.messages }
          (trimStr c) now2 r) ∧
    (s.mode = ChatMode.selected_text →
      retryLastMessage (sendSelectedTextMessage s c t now (Except.error e)) now2 r =
        sendSelectedTextMessage { sendSelectedTextMessage s c t now (Except.error e) with
                        messages := dropFromLastUser s.messages }
          (trimStr c) (trimStr t) now2 r) := by
  have h1 := sendMessage_error_eq s c e now hc hload hWf
  have h2 := sendSelectedTextMessage_error_eq s c t e now hc ht hload hWf
  rw [h1, h2]
  refine ⟨rfl, rfl, rfl, rfl, rfl, rfl, ?_, ?_⟩
  · intro hm
    exact retry_dispatch_full_book _ (trimStr c) now2 r rfl rfl hm
  · intro hm
    exact retry_dispatch_selected_text _ (trimStr c) (trimStr t) now2 r rfl rfl hm rfl

/-- C6 witness: from the initial state, a failing send of `"ask"`
stores the error, restores the empty message list, and the retry
re-sends `"ask"`. -/
theorem failed_send_is_retryable_witness :
    (sendMessage initialChatState "ask" 1 (Except.error "boom")).error = some "boom" ∧
    (sendMessage initialChatState "ask" 1 (Except.error "boom")).messages =
      initialChatState.messages ∧
    (sendMessage initialChatState "ask" 1 (Except.error "boom")).isLoading = false ∧
    (sendSelectedTextMessage initialChatState "ask" "selected" 1
        (Except.error "boom")).error = some "boom" ∧
    (sendSelectedTextMessage initialChatState "ask" "selected" 1
        (Except.error "boom")).messages = initialChatState.messages ∧
    (sendSelectedTextMessage initialChatState "ask" "selected" 1
        (Except.error "boom")).isLoading = false ∧
    (initialChatState.mode = ChatMode.full_book →
      retryLastMessage (sendMessage initialChatState "ask" 1 (Except.error "boom")) 2
          (Except.ok { conversation_id := "c1", message := "ans", sources := [] }) =
        sendMessage { sendMessage initialChatState "ask" 1 (Except.error "boom") with
                        messages := dropFromLastUser initialChatState.messages }
          (trimStr "ask") 2
          (Except.ok { conversation_id := "c1", message := "ans", sources := [] })) ∧
    (initialChatState.mode = ChatMode.selected_text →
      retryLastMessage (sendSelectedTextMessage initialChatState "ask" "selected" 1
            (Except.error "boom")) 2
          (Except.ok { conversation_id := "c1", message := "ans", sources := [] }) =
        sendSelectedTextMessage
          { sendSelectedTextMessage initialChatState "ask" "selected" 1
              (Except.error "boom") with
            messages := dropFromLastUser initialChatState.messages }
          (trimStr "ask") (trimStr "selected") 2
          (Except.ok { conversation_id := "c1", message := "ans", sources := [] })) :=
  failed_send_is_retryable initialChatState "ask" "selected" "boom" 1 2
    (Except.ok { conversation_id := "c1", message := "ans", sources := [] })
    (by decide) (by decide) (by decide) rfl

/-! ## C4 -/

/-- C4 counterexample: a conversation identifier IS sent with and
created by a selected-text request.  With a held conversation id
`"c9"`, the selected-text request body carries `conversation_id = "c9"`;
and from a null id, a successful selected-text send adopts the
response's conversation id `"c1"`. -/
theorem selected_text_conversation_id_counterexample :
    sendSelectedTextMessageBody
        { initialChatState with conversationId := some "c9" }
        "What is this?" "Some selected text" =
      some { message := "What is this?", selected_text := "Some selected text",
             conversation_id := some "c9" } ∧
    (sendSelectedTextMessage initialChatState "What is this?" "Some selected text" 0
        (Except.ok { conversation_id := "c1", message := "answer", sources := [] })).conversationId =
      some "c1" := by
  exact ⟨by decide, by decide⟩

/-- C4 (amended): every selected-text answer message carries an empty
source-citation list; however the chat client does include the current
conversation id (when non-null) in the selected-text request body, and
adopts the response's conversation id when the current id is null. -/
theorem selected_text_answers_uncited (s : ChatState) (c t : String) (now : Nat)
    (resp : ChatResponse)
    (hc : trimStr c ≠ "") (ht : trimStr t ≠ "") (hload : s.isLoading = false) :
    ((sendSelectedTextMessage s c t now (Except.ok resp)).messages.getLast?).map
        Message.sources = some (some []) ∧
    sendSelectedTextMessageBody s c t =
      some { message := trimStr c, selected_text := trimStr t,
             conversation_id := s.conversationId } ∧
    (sendSelectedTextMessage s c t now (Except.ok resp)).conversationId =
      (if s.conversationId = none then some resp.conversation_id
       else s.conversationId) := by
  refine ⟨?_, ?_, ?_⟩
  · unfold sendSelectedTextMessage
    rw [if_neg (by simp [hc, ht, hload])]
    dsimp only
    by_cases hcid : s.conversationId = none
    · rw [if_pos hcid]
      simp [List.getLast?_concat]
    · rw [if_neg hcid]
      simp [List.getLast?_concat]
  · unfold sendSelectedTextMessageBody
    rw [if_neg (by simp [hc, ht, hload])]
  · unfold sendSelectedTextMessage
    rw [if_neg (by simp [hc, ht, hload])]
    dsimp only
    by_cases hcid : s.conversationId = none
    · rw [if_pos hcid, if_pos hcid]
    · rw [if_neg hcid, if_neg hcid]

/-- C4 witness: concrete instantiation of the amended claim at the
initial state. -/
theorem selected_text_answers_uncited_witness :
    ((sendSelectedTextMessage initialChatState "Summarize this"
          "Python is a high-level language." 3
          (Except.ok { conversation_id := "c2", message := "a summary",
                       sources := [] })).messages.getLast?).map
        Message.sources = some (some []) ∧
    sendSelectedTextMessageBody initialChatState "Summarize this"
        "Python is a high-level language." =
      some { message := trimStr "Summarize this",
             selected_text := trimStr "Python is a high-level language.",
             conversation_id := initialChatState.conversationId } ∧
    (sendSelectedTextMessage initialChatState "Summarize this"
        "Python is a high-level language." 3
        (Except.ok { conversation_id := "c2", message := "a summary",
                     sources := [] })).conversationId =
      (if initialChatState.conversationId = none then some "c2"
       else initialChatState.conversationId) :=
  selected_text_answers_uncited initialChatState "Summarize this"
    "Python is a high-level language." 3
    { conversation_id := "c2", message := "a summary", sources := [] }
    (by decide) (by decide) rfl

/-! ## C2 -/

/-- C2: the coverage decision satisfies
`covered == (max_similarity >= threshold)` with `max_similarity = 0`
and `covered = false` (for a positive threshold) on zero fragments, and
whenever `max_similarity < threshold` the full-book answer is the fixed
fallback with no citations, `is_covered = false`, and the Generative
Answer Service is not invoked. -/
theorem coverage_gate_invariant (threshold : ℚ) (fragments : List RetrievedFragment)
    (generate : List RetrievedFragment → String × List SourceReference)
    (hpos : 0 < threshold) :
    (evaluate threshold fragments).covered =
      decide (maxSimilarity fragments ≥ threshold) ∧
    (evaluate threshold fragments).max_similarity = maxSimilarity fragments ∧
    maxSimilarity [] = 0 ∧
    (evaluate threshold []).covered = false ∧
    (maxSimilarity fragments < threshold →
      answerFullBook threshold generate fragments =
        ({ text := fallbackFullBook, source_citations := [],
           is_covered := false }, false)) := by
  refine ⟨rfl, rfl, rfl, ?_, ?_⟩
  · unfold evaluate
    exact decide_eq_false (not_le.mpr (by simpa [maxSimilarity] using hpos))
  · intro hlow
    have hcov : (evaluate threshold fragments).covered = false := by
      unfold evaluate
      exact decide_eq_false (not_le.mpr hlow)
    unfold answerFullBook
    simp [hcov]

/-- C2 witness: threshold `7/10` against a single fragment of
similarity `3/10` yields the fallback result with the generator not
invoked. -/
theorem coverage_gate_invariant_witness :
    (evaluate (7/10) [⟨"f1", "s1", "some fragment text", 3/10⟩]).covered =
      decide (maxSimilarity [⟨"f1", "s1", "some fragment text", 3/10⟩] ≥ (7/10 : ℚ)) ∧
    (evaluate (7/10) [⟨"f1", "s1", "some fragment text", 3/10⟩]).max_similarity =
      maxSimilarity [⟨"f1", "s1", "some fragment text", 3/10⟩] ∧
    maxSimilarity [] = 0 ∧
    (evaluate (7/10) []).covered = false ∧
    (maxSimilarity [⟨"f1", "s1", "some fragment text", 3/10⟩] < (7/10 : ℚ) →
      answerFullBook (7/10) (fun _ => ("generated", []))
          [⟨"f1", "s1", "some fragment text", 3/10⟩] =
        ({ text := fallbackFullBook, source_citations := [],
           is_covered := false }, false)) :=
  coverage_gate_invariant (7/10) [⟨"f1", "s1", "some fragment text", 3/10⟩]
    (fun _ => ("generated", [])) (by norm_num)

/-! ## C1 helper lemmas -/

/-- Looking up the key just written returns the written status. -/
theorem lookupJob_setJob (s : CacheState) (k : JobKey) (st : JobStatus) :
    lookupJob (setJob s k st) k = some st := by
  unfold lookupJob setJob
  simp

/-- Any claimable key is claimed by the atomic conditional write: the
caller receives a pending status, its claim flag is set, and the key is
now `pending`. -/
theorem requestTranslationJob_claim (s : CacheState) (k : JobKey)
    (h : claimable s k = true) :
    requestTranslationJob s k =
      (CacheReply.statusReply JobStatus.pending, true,
       setJob s k JobStatus.pending) := by
  unfold claimable at h
  unfold requestTranslationJob
  cases hl : lookupJob s k with
  | none => rfl
  | some st =>
      cases st with
      | pending => rw [hl] at h; simp at h
      | generating => rw [hl] at h; simp at h
      | failed => rfl
      | completed c exp =>
          rw [hl] at h
          simp only [decide_eq_true_eq] at h
          dsimp only
          rw [if_neg (Nat.not_lt.mpr h)]

/-- While a key is `pending`, every further request observes a pending
status, claims nothing and changes nothing. -/
theorem requestN_pending (s : CacheState) (k : JobKey) (n : Nat)
    (h : lookupJob s k = some JobStatus.pending) :
    requestN s k n =
      (List.replicate n (CacheReply.statusReply JobStatus.pending, false), s) := by
  induction n with
  | zero => rfl
  | succ m ih =>
      have hr : requestTranslationJob s k =
          (CacheReply.statusReply JobStatus.pending, false, s) := by
        unfold requestTranslationJob
        rw [h]
      unfold requestN
      rw [hr]
      dsimp only
      rw [ih]
      simp [List.replicate_succ]

/-- While a key holds a fresh `completed` job, every further request is
a cache hit returning its content, claiming nothing and changing
nothing. -/
theorem requestN_completed (s : CacheState) (k : JobKey) (n : Nat)
    (c : String) (exp : Nat)
    (h : lookupJob s k = some (JobStatus.completed c exp))
    (hfresh : s.now < exp) :
    requestN s k n =
      (List.replicate n (CacheReply.contentReply c, false), s) := by
  induction n with
  | zero => rfl
  | succ m ih =>
      have hr : requestTranslationJob s k = (CacheReply.contentReply c, false, s) := by
        unfold requestTranslationJob
        rw [h]
        dsimp only
        rw [if_pos hfresh]
      unfold requestN
      rw [hr]
      dsimp only
      rw [ih]
      simp [List.replicate_succ]

/-- A claimable key followed by `n` further concurrent requests: the
first call claims, the rest observe the pending job. -/
theorem requestN_claim (s : CacheState) (k : JobKey) (n : Nat)
    (hclaim : claimable s k = true) :
    requestN s k (n + 1) =
      ((CacheReply.statusReply JobStatus.pending, true) ::
        List.replicate n (CacheReply.statusReply JobStatus.pending, false),
       setJob s k JobStatus.pending) := by
  have hstep := requestTranslationJob_claim s k hclaim
  unfold requestN
  rw [hstep]
  dsimp only
  rw [requestN_pending _ _ n (lookupJob_setJob s k JobStatus.pending)]

/-! ## C1 -/

/-- C1: for any claimable (section, language) key and `n + 2` concurrent
`requestTranslation` calls (any interleaving of their atomic claim
steps), exactly the first caller's atomic claim succeeds; every caller
receives a status reply for the same pending job and the table holds
one `pending` row for the key; the claim holder's transition into
`generating` is observed as a status reply by later pollers without a
second claim; and once generation completes, any number of further
requests all observe the same completed content without changing the
table — idempotent convergence with at-most-one generation per key. -/
theorem concurrent_translation_requests_deduplicated (s : CacheState) (k : JobKey)
    (n m : Nat) (content : String) (expiresAt : Nat)
    (hclaim : claimable s k = true) (hexp : s.now < expiresAt) :
    (requestN s k (n + 2)).1.map Prod.snd = true :: List.replicate (n + 1) false ∧
    (requestN s k (n + 2)).1.map Prod.fst =
      List.replicate (n + 2) (CacheReply.statusReply JobStatus.pending) ∧
    lookupJob (requestN s k (n + 2)).2 k = some JobStatus.pending ∧
    lookupJob (beginGeneration (requestN s k (n + 2)).2 k) k =
      some JobStatus.generating ∧
    (requestTranslationJob (beginGeneration (requestN s k (n + 2)).2 k) k).1 =
      CacheReply.statusReply JobStatus.generating ∧
    (requestTranslationJob (beginGeneration (requestN s k (n + 2)).2 k) k).2.1 =
      false ∧
    (requestN (completeGeneration (beginGeneration (requestN s k (n + 2)).2 k) k
        content expiresAt) k m).1.map Prod.fst =
      List.replicate m (CacheReply.contentReply content) ∧
    (requestN (completeGeneration (beginGeneration (requestN s k (n + 2)).2 k) k
        content expiresAt) k m).2 =
      completeGeneration (beginGeneration (requestN s k (n + 2)).2 k) k
        content expiresAt := by
  have hN : requestN s k (n + 2) =
      ((CacheReply.statusReply JobStatus.pending, true) ::
        List.replicate (n + 1) (CacheReply.statusReply JobStatus.pending, false),
       setJob s k JobStatus.pending) := requestN_claim s k (n + 1) hclaim
  have hpend : lookupJob (setJob s k JobStatus.pending) k =
      some JobStatus.pending := lookupJob_setJob s k JobStatus.pending
  have hbegin : beginGeneration (setJob s k JobStatus.pending) k =
      setJob (setJob s k JobStatus.pending) k JobStatus.generating := by
    unfold beginGeneration
    rw [hpend]
  have hgen : lookupJob
      (setJob (setJob s k JobStatus.pending) k JobStatus.generating) k =
      some JobStatus.generating := lookupJob_setJob _ _ _
  have hreqgen : requestTranslationJob
      (setJob (setJob s k JobStatus.pending) k JobStatus.generating) k =
      (CacheReply.statusReply JobStatus.generating, false,
       setJob (setJob s k JobStatus.pending) k JobStatus.generating) := by
    unfold requestTranslationJob
    rw [hgen]
  have hcomplete : completeGeneration
      (setJob (setJob s k JobStatus.pending) k JobStatus.generating) k
      content expiresAt =
      setJob (setJob (setJob s k JobStatus.pending) k JobStatus.generating) k
        (JobStatus.completed content expiresAt) := by
    unfold completeGeneration
    rw [hgen]
  have hfinal : lookupJob
      (setJob (setJob (setJob s k JobStatus.pending) k JobStatus.generating) k
        (JobStatus.completed content expiresAt)) k =
      some (JobStatus.completed content expiresAt) := lookupJob_setJob _ _ _
  have hM := requestN_completed
      (setJob (setJob (setJob s k JobStatus.pending) k JobStatus.generating) k
        (JobStatus.completed content expiresAt)) k m content expiresAt hfinal hexp
  rw [hN]
  dsimp only
  rw [hbegin, hreqgen, hcomplete, hM]
  dsimp only
  refine ⟨?_, ?_, hpend, hgen, rfl, rfl, ?_, rfl⟩
  · simp
  · simp [List.replicate_succ]
  · simp

/-- C1 witness: two concurrent requests for section `"ch3"`, language
`"ur"` against an empty table: one claim, identical status replies, and
after completion both pollers read the same content. -/
theorem concurrent_translation_requests_deduplicated_witness :
    (requestN ⟨[], 0⟩ ("ch3", "ur") 2).1.map Prod.snd =
      true :: List.replicate 1 false ∧
    (requestN ⟨[], 0⟩ ("ch3", "ur") 2).1.map Prod.fst =
      List.replicate 2 (CacheReply.statusReply JobStatus.pending) ∧
    lookupJob (requestN ⟨[], 0⟩ ("ch3", "ur") 2).2 ("ch3", "ur") =
      some JobStatus.pending ∧
    lookupJob (beginGeneration (requestN ⟨[], 0⟩ ("ch3", "ur") 2).2 ("ch3", "ur"))
        ("ch3", "ur") = some JobStatus.generating ∧
    (requestTranslationJob
        (beginGeneration (requestN ⟨[], 0⟩ ("ch3", "ur") 2).2 ("ch3", "ur"))
        ("ch3", "ur")).1 = CacheReply.statusReply JobStatus.generating ∧
    (requestTranslationJob
        (beginGeneration (requestN ⟨[], 0⟩ ("ch3", "ur") 2).2 ("ch3", "ur"))
        ("ch3", "ur")).2.1 = false ∧
    (requestN (completeGeneration
        (beginGeneration (requestN ⟨[], 0⟩ ("ch3", "ur") 2).2 ("ch3", "ur"))
        ("ch3", "ur") "translated text" 100) ("ch3", "ur") 2).1.map Prod.fst =
      List.replicate 2 (CacheReply.contentReply "translated text") ∧
    (requestN (completeGeneration
        (beginGeneration (requestN ⟨[], 0⟩ ("ch3", "ur") 2).2 ("ch3", "ur"))
        ("ch3", "ur") "translated text" 100) ("ch3", "ur") 2).2 =
      completeGeneration
        (beginGeneration (requestN ⟨[], 0⟩ ("ch3", "ur") 2).2 ("ch3", "ur"))
        ("ch3", "ur") "translated text" 100 :=
  concurrent_translation_requests_deduplicated ⟨[], 0⟩ ("ch3", "ur") 0 2
    "translated text" 100 (by decide) (by decide)
